import Mathlib

/-!
Shallow embedding of `securitybot/chat/slack.py` (the Slack chat adapter).

The transport (`SlackClient`) is modelled as a pure function from a request to
a structured response.  Python dictionaries become structures with `Option`
fields where a key may be absent; a `KeyError` raised by a subscript on a
missing key becomes `PyError.keyError`; `ChatException` raised by the adapter
becomes `PyError.chat`.  `time.sleep` has no behavioural content beyond its
count, which the call-layer model reports.
-/

/-- The exception type raised by the adapter (`ChatException` in the source),
carrying its message string. -/
structure ChatException where
  msg : String
deriving DecidableEq

/-- Failures observable from the Python code: an adapter-raised
`ChatException`, or a `KeyError` from subscripting a missing dictionary key. -/
inductive PyError where
  | chat (e : ChatException)
  | keyError (key : String)
deriving DecidableEq

/-- Sleep 10 seconds when rate limited (module constant `RATE_LIMIT_SLEEP`). -/
def RATE_LIMIT_SLEEP : Nat := 10

/-- Maximum tries when rate limited (module constant `RATE_LIMIT_TRIES`,
commented in the source as "maximum 6 tries (60s) when rate limit reached"). -/
def RATE_LIMIT_TRIES : Nat := 6

/-- A member record from a `users.list` page.  `deleted` is optional, matching
`m.get("deleted")` in the source. -/
structure SlackUser where
  id : String := ""
  name : String := ""
  deleted : Option Bool := none
deriving DecidableEq

/-- The `response_metadata` object of a `users.list` response; `next_cursor`
may be absent. -/
structure ResponseMetadata where
  next_cursor : Option String := none
deriving DecidableEq

/-- The `channel` object of an `im.open` response; `id` may be absent. -/
structure SlackChannel where
  id : Option String := none
deriving DecidableEq

/-- A structured Slack API response.  Every field may be absent, matching a
Python dict; fields irrelevant to an endpoint simply stay at their default. -/
structure SlackResponse where
  ok : Option Bool := none
  error : Option String := none
  members : List SlackUser := []
  response_metadata : Option ResponseMetadata := none
  channel : Option SlackChannel := none
deriving DecidableEq

/-- The requests the adapter issues, with the keyword arguments the source
passes to `SlackClient.api_call`. -/
inductive ApiRequest where
  | apiTest
  | usersList (cursor : Option String)
  | imOpen (user : String)
  | postMessage (channel text username : String) (as_user : Bool) (icon_url : String)
deriving DecidableEq

/-- Python `str.lower()`, modelled characterwise over the string data (all
strings this code compares case-insensitively are ASCII). -/
def strLower (s : String) : String :=
  ⟨s.data.map Char.toLower⟩

/-- Python `str.startswith(p)`, modelled over the string data. -/
def strStartsWith (s p : String) : Bool :=
  s.data.take p.data.length == p.data

/-- The check `response.get("error", "").lower() == "ratelimited"` from `_api_call`. -/
def isRateLimited (response : SlackResponse) : Bool :=
  strLower (response.error.getD "") == "ratelimited"

/-- The message of the exception raised when the retry ceiling is hit. -/
def rateLimitMaxError : ChatException := ⟨"Slack rate limit max tries reached."⟩

/-- The message of the exception raised by `_validate` on a bad `ok` flag. -/
def unableToConnectError : ChatException := ⟨"Unable to connect to Slack API."⟩

/-- The `while True` loop of `_api_call`.  `responses k` is the response the
transport returns to the k-th request of this call (0-based); `cur_try` is the
loop counter of the source and also indexes the requests, since every
iteration issues exactly one request and increments the counter exactly when
it loops.  `gas` is a structural bound on the remaining iterations: the loop
raises no later than the iteration entered with `cur_try = 7`, so starting at
`cur_try = 0` with `gas = 8` the zero case is unreachable.  The result is
(outcome, number of transport requests issued, number of sleeps performed). -/
def apiCallLoop (responses : Nat → SlackResponse) (rate_limit_retry : Bool) :
    Nat → Nat → Except ChatException SlackResponse × Nat × Nat
  | cur_try, 0 => (Except.error rateLimitMaxError, cur_try, cur_try)
  | cur_try, gas + 1 =>
    let response := responses cur_try
    if cur_try > RATE_LIMIT_TRIES then
      (Except.error rateLimitMaxError, cur_try + 1, cur_try)
    else if isRateLimited response && rate_limit_retry then
      apiCallLoop responses rate_limit_retry (cur_try + 1) gas
    else
      (Except.ok response, cur_try + 1, cur_try)

/-- `_api_call`: run the retry loop, then perform the
`not ("ok" in response and response["ok"])` check.  The source only logs on
that check, so the model returns alongside the raw response a flag that is
true exactly when the diagnostic "Bad Slack API request" line is logged. -/
def api_call (responses : Nat → SlackResponse) (rate_limit_retry : Bool) :
    Except ChatException (SlackResponse × Bool) × Nat × Nat :=
  match apiCallLoop responses rate_limit_retry 0 8 with
  | (Except.error e, n, s) => (Except.error e, n, s)
  | (Except.ok response, n, s) =>
      (Except.ok (response, !(response.ok == some true)), n, s)

/-- The adapter object.  `_slack` stands for the `SlackClient` instance,
modelled as the function from a request to the response of the transport; a
rate-limit retry re-issues the identical request. -/
structure Slack where
  _username : String
  _icon_url : String
  _slack : ApiRequest → SlackResponse

/-- `_validate`: call `api.test` through `_api_call` and raise
`ChatException` unless `response["ok"]` is truthy (`KeyError` if absent). -/
def Slack._validate (a : Slack) : Except PyError Unit :=
  match api_call (fun _ => a._slack ApiRequest.apiTest) true with
  | (Except.error e, _, _) => Except.error (PyError.chat e)
  | (Except.ok (response, _), _, _) =>
    match response.ok with
    | none => Except.error (PyError.keyError "ok")
    | some b =>
      if b then Except.ok () else Except.error (PyError.chat unableToConnectError)

/-- `__init__`: store the credential fields, build the client from the token,
and run `_validate` before returning the instance.  `slackClient` models the
`SlackClient` constructor, i.e. the backend as seen through a given token. -/
def Slack.init (slackClient : String → ApiRequest → SlackResponse)
    (username token icon_url : String) : Except PyError Slack :=
  let a : Slack := ⟨username, icon_url, slackClient token⟩
  match a._validate with
  | Except.error e => Except.error e
  | Except.ok _ => Except.ok a

/-- The `while True` loop of `get_users`.  `fuel` bounds the number of
iterations; `none` means the loop has not terminated within `fuel` iterations.
Note the recursive call passes `next_cursor` unchanged: the source binds
`next_cursor = None` once and never reassigns it, it only tests
`response_metadata.next_cursor` to decide whether to break. -/
def getUsersLoop (client : ApiRequest → SlackResponse) (next_cursor : Option String)
    (members : List SlackUser) :
    Nat → Option (Except ChatException (List SlackUser))
  | 0 => none
  | fuel + 1 =>
    match api_call (fun _ => client (ApiRequest.usersList next_cursor)) true with
    | (Except.error e, _, _) => some (Except.error e)
    | (Except.ok (response, _), _, _) =>
      let active_members := response.members.filter (fun m => !(m.deleted == some true))
      let members := members ++ active_members
      match response.response_metadata with
      | none => some (Except.ok members)
      | some metadata =>
        match metadata.next_cursor with
        | none => some (Except.ok members)
        | some c =>
          if c = "" then some (Except.ok members)
          else getUsersLoop client next_cursor members fuel

/-- `get_users`: run the pagination loop from cursor `None` with an empty
accumulator. -/
def Slack.get_users (a : Slack) (fuel : Nat) :
    Option (Except ChatException (List SlackUser)) :=
  getUsersLoop a._slack none [] fuel

/-- An event from `rtm_read()`, a Python dict whose keys may be absent. -/
structure RtmEvent where
  type : Option String := none
  user : Option String := none
  channel : Option String := none
  text : Option String := none
deriving DecidableEq

/-- The first comprehension of `get_messages`:
`[e for e in events if e["type"] == "message"]`.  Subscripting `e["type"]`
raises `KeyError` when the key is absent. -/
def filterMessages : List RtmEvent → Except PyError (List RtmEvent)
  | [] => Except.ok []
  | e :: es =>
    match e.type with
    | none => Except.error (PyError.keyError "type")
    | some t =>
      match filterMessages es with
      | Except.error err => Except.error err
      | Except.ok rest => Except.ok (if t = "message" then e :: rest else rest)

/-- The second comprehension of `get_messages`:
`[m for m in messages if "user" in m and m["channel"].startswith("D")]`.
The `and` short-circuits, so `m["channel"]` is only subscripted (and can only
raise `KeyError`) when the `user` key is present. -/
def filterDirectMessages : List RtmEvent → Except PyError (List RtmEvent)
  | [] => Except.ok []
  | m :: ms =>
    if m.user.isSome then
      match m.channel with
      | none => Except.error (PyError.keyError "channel")
      | some c =>
        match filterDirectMessages ms with
        | Except.error err => Except.error err
        | Except.ok rest =>
          Except.ok (if strStartsWith c "D" then m :: rest else rest)
    else filterDirectMessages ms

/-- `get_messages`, as a function of the batch returned by `rtm_read()`. -/
def get_messages (events : List RtmEvent) : Except PyError (List RtmEvent) :=
  match filterMessages events with
  | Except.error e => Except.error e
  | Except.ok messages => filterDirectMessages messages

/-- `_api_call` instrumented with the list of transport requests it issues:
a rate-limited call re-issues the identical request, so the trace is the
request repeated once per attempt. -/
def traceApiCall (client : ApiRequest → SlackResponse) (req : ApiRequest) :
    Except ChatException SlackResponse × List ApiRequest :=
  match api_call (fun _ => client req) true with
  | (Except.error e, n, _) => (Except.error e, List.replicate n req)
  | (Except.ok (response, _), n, _) => (Except.ok response, List.replicate n req)

/-- `send_message`: a single `chat.postMessage` call through `_api_call`,
whose response the source discards (soft failures are only logged inside
`_api_call`). -/
def Slack.send_message (a : Slack) (channel : String) (message : String) :
    Except ChatException SlackResponse × List ApiRequest :=
  traceApiCall a._slack
    (ApiRequest.postMessage channel message a._username false a._icon_url)

/-- `message_user`: resolve a direct channel with `im.open`, subscript
`["channel"]["id"]` out of the response, then `send_message` to it.  The
result pairs the outcome with the full trace of transport requests issued. -/
def Slack.message_user (a : Slack) (user : SlackUser) (message : String) :
    Except PyError Unit × List ApiRequest :=
  match traceApiCall a._slack (ApiRequest.imOpen user.id) with
  | (Except.error e, t1) => (Except.error (PyError.chat e), t1)
  | (Except.ok response, t1) =>
    match response.channel with
    | none => (Except.error (PyError.keyError "channel"), t1)
    | some ch =>
      match ch.id with
      | none => (Except.error (PyError.keyError "id"), t1)
      | some channelId =>
        match Slack.send_message a channelId message with
        | (Except.error e, t2) => (Except.error (PyError.chat e), t1 ++ t2)
        | (Except.ok _, t2) => (Except.ok (), t1 ++ t2)

/-! Concrete transports and data used to instantiate the theorems below. -/

/-- A response carrying the rate-limit error code. -/
def rlResponse : SlackResponse := { ok := some false, error := some "ratelimited" }

/-- A minimal successful response. -/
def okResponse : SlackResponse := { ok := some true }

/-- A soft-failure response: `ok` present and false, no error code. -/
def badOkResponse : SlackResponse := { ok := some false }

/-- A transport returning seven rate-limited responses (to requests 0..6) and
a successful response from request 7 on. -/
def sevenRateLimited : Nat → SlackResponse :=
  fun k => if k ≤ 6 then rlResponse else okResponse

def userA : SlackUser := ⟨"U1", "alice", none⟩

def userB : SlackUser := ⟨"U2", "bob", none⟩

/-- A member record with `deleted` set to true. -/
def userDel : SlackUser := ⟨"U3", "gone", some true⟩

/-- A backend with two pages of users: the page at the absent cursor carries
`next_cursor = "abc"`, and the page at cursor `"abc"` carries no metadata, so
a listing that followed the cursor would terminate with `[userA, userB]`. -/
def twoPageClient : ApiRequest → SlackResponse
  | ApiRequest.usersList none =>
      { ok := some true, members := [userA], response_metadata := some ⟨some "abc"⟩ }
  | ApiRequest.usersList (some _) => { ok := some true, members := [userB] }
  | _ => { ok := some true }

/-- A backend with a single user page containing one deleted and one active
member and no response metadata. -/
def onePageClient : ApiRequest → SlackResponse
  | ApiRequest.usersList _ => { ok := some true, members := [userDel, userA] }
  | _ => { ok := some true }

/-- The check `e["type"] == "message"`, the predicate of the first comprehension. -/
def typeMessage (e : RtmEvent) : Bool :=
  e.type == some "message"

/-- The check `"user" in m and m["channel"].startswith("D")`, the predicate of the second
comprehension, as a total predicate on events whose channel may be absent. -/
def dmPred (e : RtmEvent) : Bool :=
  e.user.isSome &&
    (match e.channel with
     | some c => strStartsWith c "D"
     | none => false)

/-- An event qualifies for `get_messages` when it passes both predicates. -/
def qualifies (e : RtmEvent) : Bool :=
  typeMessage e && dmPred e

/-- A qualifying direct message event. -/
def evDirect1 : RtmEvent := ⟨some "message", some "u1", some "D123", some "hi"⟩

/-- A non-message event. -/
def evOther : RtmEvent := ⟨some "hello", none, none, none⟩

/-- A message event with no sender id. -/
def evNoUser : RtmEvent := ⟨some "message", none, some "D5", none⟩

/-- A message event from a group channel. -/
def evGroup : RtmEvent := ⟨some "message", some "u4", some "C77", none⟩

/-- A second qualifying direct message event. -/
def evDirect2 : RtmEvent := ⟨some "message", some "u5", some "D9", none⟩

/-- A mixed batch of five buffered events of which exactly two qualify. -/
def batchFive : List RtmEvent := [evDirect1, evOther, evNoUser, evGroup, evDirect2]

/-- An `im.open` response resolving the direct channel `"D99"`. -/
def dmChannelResponse : SlackResponse := { ok := some true, channel := some ⟨some "D99"⟩ }

/-- A backend where channel resolution succeeds but every send attempt is
rate-limited. -/
def sendRateLimitedClient : ApiRequest → SlackResponse
  | ApiRequest.imOpen _ => dmChannelResponse
  | ApiRequest.postMessage _ _ _ _ _ => rlResponse
  | _ => okResponse

def cexAdapter : Slack := ⟨"sb", "icon", sendRateLimitedClient⟩

/-- A backend where channel resolution succeeds and the send is a soft
failure (`ok = false`, no error code). -/
def happyClient : ApiRequest → SlackResponse
  | ApiRequest.imOpen _ => dmChannelResponse
  | ApiRequest.postMessage _ _ _ _ _ => { ok := some false }
  | _ => okResponse

/-- A transport answering every request successfully. -/
def okClient : ApiRequest → SlackResponse := fun _ => okResponse

/-- A transport answering every request with a soft failure. -/
def badOkClient : ApiRequest → SlackResponse := fun _ => badOkResponse

/-- A backend environment (token to client) that always succeeds. -/
def envOk : String → ApiRequest → SlackResponse := fun _ => okClient

/-- A backend environment whose connectivity test reports `ok = false`. -/
def envBad : String → ApiRequest → SlackResponse := fun _ => badOkClient

/-- True when the outcome of a construction attempt is a raised
`ChatException`, as opposed to an instance or a `KeyError`. -/
def isChatError : Except PyError Slack → Bool
  | Except.error (PyError.chat _) => true
  | _ => false

/-! Helper lemmas shared by the claim theorems. -/

/-- Unfolding of one iteration of the retry loop. -/
theorem apiCallLoop_succ (responses : Nat → SlackResponse) (retry : Bool)
    (cur_try gas : Nat) :
    apiCallLoop responses retry cur_try (gas + 1)
      = if cur_try > RATE_LIMIT_TRIES then
          (Except.error rateLimitMaxError, cur_try + 1, cur_try)
        else if isRateLimited (responses cur_try) && retry then
          apiCallLoop responses retry (cur_try + 1) gas
        else
          (Except.ok (responses cur_try), cur_try + 1, cur_try) := rfl

/-- The only exception the retry loop can produce is the rate-limit one. -/
theorem apiCallLoop_error_eq (responses : Nat → SlackResponse) (retry : Bool) :
    ∀ (gas cur_try : Nat) {e : ChatException} {n s : Nat},
      apiCallLoop responses retry cur_try gas = (Except.error e, n, s) →
      e = rateLimitMaxError := by
  intro gas
  induction gas with
  | zero =>
    intro cur_try e n s h
    simp only [apiCallLoop, Prod.mk.injEq] at h
    exact (Except.error.inj h.1).symm
  | succ gas ih =>
    intro cur_try e n s h
    rw [apiCallLoop_succ] at h
    split at h
    · exact (Except.error.inj (Prod.mk.injEq .. ▸ h).1).symm
    · split at h
      · exact ih _ h
      · simp only [Prod.mk.injEq] at h
        exact absurd h.1 (by simp)

/-- A successful retry loop returns one of the responses of the transport. -/
theorem apiCallLoop_ok_val (responses : Nat → SlackResponse) (retry : Bool) :
    ∀ (gas cur_try : Nat) {r : SlackResponse} {n s : Nat},
      apiCallLoop responses retry cur_try gas = (Except.ok r, n, s) →
      ∃ j, r = responses j := by
  intro gas
  induction gas with
  | zero =>
    intro cur_try r n s h
    simp only [apiCallLoop, Prod.mk.injEq] at h
    exact absurd h.1 (by simp)
  | succ gas ih =>
    intro cur_try r n s h
    rw [apiCallLoop_succ] at h
    split at h
    · simp only [Prod.mk.injEq] at h
      exact absurd h.1 (by simp)
    · split at h
      · exact ih _ h
      · simp only [Prod.mk.injEq] at h
        exact ⟨cur_try, (Except.ok.inj h.1).symm⟩

/-- When the first response is not rate-limited, or retrying is disabled,
`_api_call` performs a single request and returns that raw response, with the
diagnostic flag set iff `ok` is absent or not true. -/
theorem apiCall_not_rl (responses : Nat → SlackResponse) (retry : Bool)
    (h : isRateLimited (responses 0) = false ∨ retry = false) :
    api_call responses retry
      = (Except.ok (responses 0, !((responses 0).ok == some true)), 1, 0) := by
  have hc : (isRateLimited (responses 0) && retry) = false := by
    rcases h with h | h <;> simp [h]
  have h8 : (8 : Nat) = 7 + 1 := rfl
  simp only [api_call, h8, apiCallLoop_succ, hc]
  norm_num [RATE_LIMIT_TRIES]

/-- The only exception `_api_call` can produce is the rate-limit one. -/
theorem apiCall_error_eq (responses : Nat → SlackResponse) (retry : Bool)
    {e : ChatException} {n s : Nat}
    (h : api_call responses retry = (Except.error e, n, s)) :
    e = rateLimitMaxError := by
  unfold api_call at h
  rcases hl : apiCallLoop responses retry 0 8 with ⟨res, n', s'⟩
  rw [hl] at h
  cases res with
  | error e' =>
    simp only [Prod.mk.injEq] at h
    exact (Except.error.inj h.1).symm ▸ apiCallLoop_error_eq responses retry 8 0 hl
  | ok r =>
    simp only [Prod.mk.injEq] at h
    exact absurd h.1 (by simp)

/-- A successful `_api_call` returns one of the responses of the transport, paired
with the diagnostic flag computed from its `ok` field. -/
theorem apiCall_ok_val (responses : Nat → SlackResponse) (retry : Bool)
    {r : SlackResponse} {b : Bool} {n s : Nat}
    (h : api_call responses retry = (Except.ok (r, b), n, s)) :
    (∃ j, r = responses j) ∧ b = !(r.ok == some true) := by
  unfold api_call at h
  rcases hl : apiCallLoop responses retry 0 8 with ⟨res, n', s'⟩
  rw [hl] at h
  cases res with
  | error e' =>
    simp only [Prod.mk.injEq] at h
    exact absurd h.1 (by simp)
  | ok r' =>
    simp only [Prod.mk.injEq, Except.ok.injEq, Prod.mk.injEq] at h
    obtain ⟨⟨hr, hb⟩, -⟩ := h
    subst hr
    exact ⟨apiCallLoop_ok_val responses retry 8 0 hl, hb.symm⟩

/-- A call on a request whose response is not rate-limited issues exactly one
transport request and succeeds with the raw response. -/
theorem traceApiCall_not_rl (client : ApiRequest → SlackResponse) (req : ApiRequest)
    (h : isRateLimited (client req) = false) :
    traceApiCall client req = (Except.ok (client req), [req]) := by
  unfold traceApiCall
  rw [apiCall_not_rl (fun _ => client req) true (Or.inl h)]
  rfl

/-- The only exception an instrumented call can produce is the rate-limit
one. -/
theorem traceApiCall_error_eq (client : ApiRequest → SlackResponse) (req : ApiRequest)
    {e : ChatException} {t : List ApiRequest}
    (h : traceApiCall client req = (Except.error e, t)) :
    e = rateLimitMaxError := by
  unfold traceApiCall at h
  rcases hl : api_call (fun _ => client req) true with ⟨res, n, s⟩
  rw [hl] at h
  cases res with
  | error e' =>
    simp only [Prod.mk.injEq] at h
    exact (Except.error.inj h.1).symm ▸ apiCall_error_eq _ _ hl
  | ok p =>
    rcases p with ⟨r, b⟩
    simp only [Prod.mk.injEq] at h
    exact absurd h.1 (by simp)

/-- Members surviving the per-page filter are not deleted. -/
theorem mem_filter_not_deleted {l : List SlackUser} {m : SlackUser}
    (h : m ∈ l.filter (fun m => !(m.deleted == some true))) :
    ¬ m.deleted = some true := by
  have := (List.mem_filter.mp h).2
  simpa using this

/-- Every terminating run of the pagination loop whose accumulator holds no
deleted member returns a list with no deleted member. -/
theorem getUsersLoop_no_deleted (client : ApiRequest → SlackResponse)
    (cursor : Option String) :
    ∀ (fuel : Nat) (acc ms : List SlackUser),
      (∀ m ∈ acc, ¬ m.deleted = some true) →
      getUsersLoop client cursor acc fuel = some (Except.ok ms) →
      ∀ m ∈ ms, ¬ m.deleted = some true := by
  intro fuel
  induction fuel with
  | zero =>
    intro acc ms _ h
    simp [getUsersLoop] at h
  | succ fuel ih =>
    intro acc ms hacc h
    simp only [getUsersLoop] at h
    rcases hcall : api_call (fun _ => client (ApiRequest.usersList cursor)) true
      with ⟨res, n, s⟩
    rw [hcall] at h
    cases res with
    | error e => simp at h
    | ok p =>
      rcases p with ⟨response, b⟩
      simp only at h
      have hnext : ∀ ms',
          acc ++ response.members.filter (fun m => !(m.deleted == some true)) = ms' →
          ∀ m ∈ ms', ¬ m.deleted = some true := by
        intro ms' hms' m hm
        subst hms'
        rcases List.mem_append.mp hm with hm | hm
        · exact hacc m hm
        · exact mem_filter_not_deleted hm
      have haccnew : ∀ m ∈ acc ++ response.members.filter
          (fun m => !(m.deleted == some true)), ¬ m.deleted = some true :=
        hnext _ rfl
      split at h
      · simp only [Option.some.injEq, Except.ok.injEq] at h
        exact h ▸ haccnew
      · split at h
        · simp only [Option.some.injEq, Except.ok.injEq] at h
          exact h ▸ haccnew
        · split at h
          · simp only [Option.some.injEq, Except.ok.injEq] at h
            exact h ▸ haccnew
          · exact ih _ ms haccnew h

/-- Against the two-page backend the pagination loop never terminates: the
request is always re-issued with the unchanged initial cursor, so the loop
always sees `next_cursor = "abc"` again. -/
theorem twoPage_loop_none :
    ∀ (fuel : Nat) (acc : List SlackUser),
      getUsersLoop twoPageClient none acc fuel = none
  | 0, _ => rfl
  | fuel + 1, acc => by
    have hstep : getUsersLoop twoPageClient none acc (fuel + 1)
        = getUsersLoop twoPageClient none (acc ++ [userA]) fuel := rfl
    rw [hstep]
    exact twoPage_loop_none fuel _

/-- When every event carries a type tag, the first comprehension succeeds and
keeps exactly the `"message"`-typed events, in order. -/
theorem filterMessages_ok :
    ∀ (events : List RtmEvent), (∀ e ∈ events, (e.type).isSome = true) →
      filterMessages events = Except.ok (events.filter typeMessage) := by
  intro events
  induction events with
  | nil => intro _; rfl
  | cons e es ih =>
    intro h
    obtain ⟨t, ht⟩ := Option.isSome_iff_exists.mp (h e (List.mem_cons_self e es))
    have hes := ih (fun x hx => h x (List.mem_cons_of_mem e hx))
    simp only [filterMessages]
    rw [ht, hes]
    by_cases hm : t = "message"
    · simp [List.filter_cons, typeMessage, ht, hm]
    · simp [List.filter_cons, typeMessage, ht, hm]

/-- When every event whose `user` key is present also carries a channel, the
second comprehension succeeds and keeps exactly the direct-channel events with
a sender, in order. -/
theorem filterDirectMessages_ok :
    ∀ (ms : List RtmEvent),
      (∀ m ∈ ms, (m.user).isSome = true → (m.channel).isSome = true) →
      filterDirectMessages ms = Except.ok (ms.filter dmPred) := by
  intro ms
  induction ms with
  | nil => intro _; rfl
  | cons m ms ih =>
    intro h
    have hms := ih (fun x hx => h x (List.mem_cons_of_mem m hx))
    simp only [filterDirectMessages]
    by_cases hu : (m.user).isSome = true
    · obtain ⟨c, hc⟩ := Option.isSome_iff_exists.mp (h m (List.mem_cons_self m ms) hu)
      rw [if_pos hu, hc, hms]
      by_cases hd : strStartsWith c "D" = true
      · simp [List.filter_cons, dmPred, hu, hc, hd]
      · simp [List.filter_cons, dmPred, hu, hc, hd]
    · rw [if_neg hu, hms]
      have hu' : (m.user).isSome = false := by
        simpa using hu
      simp [List.filter_cons, dmPred, hu']

/-- Filtering by the message-type predicate and then the direct-message
predicate keeps exactly the qualifying events. -/
theorem filter_typeMessage_dmPred :
    ∀ (l : List RtmEvent), (l.filter typeMessage).filter dmPred = l.filter qualifies := by
  intro l
  induction l with
  | nil => rfl
  | cons e es ih =>
    by_cases h1 : typeMessage e = true
    · by_cases h2 : dmPred e = true
      · simp [List.filter_cons, h1, h2, qualifies, ih]
      · simp [List.filter_cons, h1, h2, qualifies, ih]
    · simp [List.filter_cons, h1, qualifies, ih]

/-- On a batch where every event carries a type tag and every message-typed
event with a sender carries a channel, `get_messages` returns exactly the
qualifying events, in order. -/
theorem get_messages_filter_eq (events : List RtmEvent)
    (h1 : ∀ e ∈ events, (e.type).isSome = true)
    (h2 : ∀ e ∈ events, e.type = some "message" → (e.user).isSome = true →
      (e.channel).isSome = true) :
    get_messages events = Except.ok (events.filter qualifies) := by
  have hstep : get_messages events = filterDirectMessages (events.filter typeMessage) := by
    unfold get_messages
    rw [filterMessages_ok events h1]
  rw [hstep, filterDirectMessages_ok _ ?hwf]
  · rw [filter_typeMessage_dmPred]
  case hwf =>
    intro m hm hu
    rcases List.mem_filter.mp hm with ⟨hmem, hpred⟩
    refine h2 m hmem ?_ hu
    simpa [typeMessage] using hpred

/-! The claim theorems. -/

/-- Claim C1: the spec says the pagination loop issues the next request with
the new cursor read from the response metadata and terminates having
accumulated each member exactly once.  The code never reassigns the cursor,
so against a backend with a genuine second page (whose own metadata would end
the listing) the loop re-fetches the first page forever: the listing returns
for no amount of fuel. -/
theorem get_users_stale_cursor_diverges :
    (twoPageClient (ApiRequest.usersList (some "abc"))).response_metadata = none
    ∧ ∀ fuel : Nat, Slack.get_users ⟨"sb", "icon", twoPageClient⟩ fuel = none := by
  refine ⟨rfl, ?_⟩
  intro fuel
  exact twoPage_loop_none fuel []

/-- Claim C2: seven consecutive rate-limited responses do produce the
rate-limit `ChatException`, but only after the call layer has slept a 7th
time and issued an 8th request, whose response (here a success) is discarded:
the evaluation shows 8 requests issued and 7 sleeps performed, against the
claimed 6-retry ceiling with no request beyond the specified attempts. -/
theorem api_call_rate_limit_off_by_one :
    api_call sevenRateLimited true = (Except.error rateLimitMaxError, 8, 7)
    ∧ isRateLimited (sevenRateLimited 7) = false
    ∧ ((List.range 7).all fun k => isRateLimited (sevenRateLimited k)) = true :=
  ⟨rfl, rfl, rfl⟩

/-- Claim C3: when the first response is not rate-limited, or retrying is
disabled, `_api_call` stops and returns that raw response unchanged — even
with `ok` absent or false it merely sets the diagnostic flag — and the only
exception it ever produces is the exhausted-rate-limit one. -/
theorem api_call_soft_failure_returns_response (responses : Nat → SlackResponse)
    (retry : Bool) :
    (isRateLimited (responses 0) = false ∨ retry = false →
      api_call responses retry
        = (Except.ok (responses 0, !((responses 0).ok == some true)), 1, 0))
    ∧ (∀ (e : ChatException) (n s : Nat),
        api_call responses retry = (Except.error e, n, s) → e = rateLimitMaxError) :=
  ⟨fun h => apiCall_not_rl responses retry h,
   fun _ _ _ h => apiCall_error_eq responses retry h⟩

/-- Witness for claim C3: an `ok = false` response without an error code is
returned raw after a single request, with the diagnostic flag set. -/
theorem api_call_soft_failure_witness :
    api_call (fun _ => badOkResponse) true
      = (Except.ok (badOkResponse, true), 1, 0) :=
  (api_call_soft_failure_returns_response (fun _ => badOkResponse) true).1 (Or.inl rfl)

/-- Claim C4: no member of a terminating user listing has `deleted = true`. -/
theorem get_users_excludes_deleted (a : Slack) (fuel : Nat) (ms : List SlackUser)
    (h : a.get_users fuel = some (Except.ok ms)) :
    ∀ m ∈ ms, ¬ m.deleted = some true :=
  getUsersLoop_no_deleted a._slack none fuel [] ms (by intro m hm; simp at hm) h

/-- Witness for claim C4: the one-page backend with a deleted and an active
member yields the listing `[userA]`, whose sole member is not deleted. -/
theorem get_users_excludes_deleted_witness : ¬ userA.deleted = some true :=
  get_users_excludes_deleted ⟨"sb", "icon", onePageClient⟩ 1 [userA] rfl userA
    (List.mem_singleton.mpr rfl)

/-- Claim C5: on a batch whose events carry the fields the filter reads,
`get_messages` retains exactly the events typed `"message"` that carry a
sender id and whose channel starts with the direct-channel marker, in order. -/
theorem get_messages_retains_direct (events : List RtmEvent)
    (h1 : ∀ e ∈ events, (e.type).isSome = true)
    (h2 : ∀ e ∈ events, e.type = some "message" → (e.user).isSome = true →
      (e.channel).isSome = true) :
    get_messages events = Except.ok (events.filter qualifies) :=
  get_messages_filter_eq events h1 h2

/-- Witness for claim C5: the mixed batch of five events with two qualifying
yields exactly those two, in their original order. -/
theorem get_messages_retains_direct_witness :
    get_messages batchFive = Except.ok [evDirect1, evDirect2] :=
  get_messages_retains_direct batchFive (by decide) (by decide)

/-- Counterexample to claim C6: `get_messages` is not silent on malformed
events — an event with no type tag, or a message-typed event with a sender
but no channel, raises a key lookup error instead of being dropped. -/
theorem get_messages_key_error_on_malformed :
    get_messages [⟨none, some "u1", some "D1", none⟩]
        = Except.error (PyError.keyError "type")
    ∧ get_messages [⟨some "message", some "u2", none, none⟩]
        = Except.error (PyError.keyError "channel") :=
  ⟨rfl, rfl⟩

/-- Amended claim C6: events that fail the filter predicates while carrying a
type tag — a type other than `"message"`, or a message-typed event with no
sender id — are silently dropped with no error. -/
theorem get_messages_drops_failing (events : List RtmEvent)
    (h : ∀ e ∈ events,
      ((e.type).isSome = true ∧ ¬ e.type = some "message")
      ∨ (e.type = some "message" ∧ e.user = none)) :
    get_messages events = Except.ok [] := by
  have h1 : ∀ e ∈ events, (e.type).isSome = true := by
    intro e he
    rcases h e he with ⟨hs, _⟩ | ⟨hm, _⟩
    · exact hs
    · simp [hm]
  have h2 : ∀ e ∈ events, e.type = some "message" → (e.user).isSome = true →
      (e.channel).isSome = true := by
    intro e he hm hu
    rcases h e he with ⟨_, hnot⟩ | ⟨_, hnone⟩
    · exact absurd hm hnot
    · rw [hnone] at hu
      simp at hu
  rw [get_messages_filter_eq events h1 h2]
  have hnil : events.filter qualifies = [] := by
    refine List.filter_eq_nil_iff.mpr ?_
    intro e he
    rcases h e he with ⟨_, hnot⟩ | ⟨_, hnone⟩
    · simp [qualifies, typeMessage, hnot]
    · simp [qualifies, dmPred, hnone]
  rw [hnil]

/-- Witness for the amended claim C6: a non-message event and a sender-less
message event are both dropped without error. -/
theorem get_messages_drops_failing_witness :
    get_messages [evOther, evNoUser] = Except.ok [] :=
  get_messages_drops_failing [evOther, evNoUser] (by decide)

/-- Claim C7: `_validate` calls the connectivity-test endpoint and raises the
connect `ChatException` when the returned `ok` flag is false, and returns
normally when it is true. -/
theorem validate_checks_ok_flag (a : Slack)
    (h : isRateLimited (a._slack ApiRequest.apiTest) = false) :
    ((a._slack ApiRequest.apiTest).ok = some false →
      a._validate = Except.error (PyError.chat unableToConnectError))
    ∧ ((a._slack ApiRequest.apiTest).ok = some true → a._validate = Except.ok ()) := by
  have hcall := apiCall_not_rl (fun _ => a._slack ApiRequest.apiTest) true (Or.inl h)
  constructor
  · intro hok
    unfold Slack._validate
    rw [hcall]
    simp [hok]
  · intro hok
    unfold Slack._validate
    rw [hcall]
    simp [hok]

/-- Witness for claim C7: a backend reporting `ok = false` makes `_validate`
raise, and one reporting `ok = true` makes it return normally. -/
theorem validate_checks_ok_flag_witness :
    Slack._validate ⟨"sb", "icon", badOkClient⟩
        = Except.error (PyError.chat unableToConnectError)
    ∧ Slack._validate ⟨"sb", "icon", okClient⟩ = Except.ok () :=
  ⟨(validate_checks_ok_flag ⟨"sb", "icon", badOkClient⟩ rfl).1 rfl,
   (validate_checks_ok_flag ⟨"sb", "icon", okClient⟩ rfl).2 rfl⟩

/-- Against a transport that answers every attempt with the same response,
`_api_call` either exhausts the rate limit (8 requests, 7 sleeps) or returns
that response after a single request. -/
theorem apiCall_const (r0 : SlackResponse) (retry : Bool) :
    api_call (fun _ => r0) retry = (Except.error rateLimitMaxError, 8, 7)
    ∨ api_call (fun _ => r0) retry = (Except.ok (r0, !(r0.ok == some true)), 1, 0) := by
  by_cases h : isRateLimited r0 = true
  · by_cases hr : retry = true
    · left
      subst hr
      simp [api_call, apiCallLoop_succ, h, RATE_LIMIT_TRIES]
    · right
      exact apiCall_not_rl _ _ (Or.inr (by simpa using hr))
  · right
    exact apiCall_not_rl _ _ (Or.inl (by simpa using h))

/-- Counterexample to claim C8: channel resolution succeeds (the `im.open`
call returns a channel without a hard failure), yet `message_user` still
fails with the rate-limit `ChatException`, because the hard failure of the
send call propagates. -/
theorem message_user_send_hard_failure_raises :
    (Slack.message_user cexAdapter ⟨"U1", "alice", none⟩ "hi").1
        = Except.error (PyError.chat rateLimitMaxError)
    ∧ (traceApiCall cexAdapter._slack (ApiRequest.imOpen "U1")).1
        = Except.ok dmChannelResponse :=
  ⟨rfl, rfl⟩

/-- Amended claim C8: when neither call is rate-limited and the resolution
response carries a channel id, `message_user` issues exactly one `im.open`
request followed by exactly one `chat.postMessage` request with the resolved
channel, succeeding regardless of the `ok` flag of the send response; and it fails
with a `ChatException` only when the resolution or the send call hard-fails
on exhausted rate-limit retries. -/
theorem message_user_one_open_one_send (a : Slack) (user : SlackUser)
    (message : String) :
    (∀ channelId : String,
      isRateLimited (a._slack (ApiRequest.imOpen user.id)) = false →
      (a._slack (ApiRequest.imOpen user.id)).channel = some ⟨some channelId⟩ →
      isRateLimited (a._slack (ApiRequest.postMessage channelId message a._username
        false a._icon_url)) = false →
      Slack.message_user a user message
        = (Except.ok (), [ApiRequest.imOpen user.id,
            ApiRequest.postMessage channelId message a._username false a._icon_url]))
    ∧ (∀ (e : ChatException) (t : List ApiRequest),
        Slack.message_user a user message = (Except.error (PyError.chat e), t) →
        e = rateLimitMaxError) := by
  constructor
  · intro channelId h1 hch h2
    unfold Slack.message_user
    rw [traceApiCall_not_rl _ _ h1]
    simp only [hch]
    unfold Slack.send_message
    rw [traceApiCall_not_rl _ _ h2]
    rfl
  · intro e t h
    unfold Slack.message_user at h
    split at h
    · rename_i e1 t1 heq
      simp only [Prod.mk.injEq, Except.error.injEq, PyError.chat.injEq] at h
      exact h.1 ▸ traceApiCall_error_eq _ _ heq
    · rename_i resp t1 heq
      split at h
      · simp at h
      · split at h
        · simp at h
        · split at h
          · rename_i e2 t2 heq2
            unfold Slack.send_message at heq2
            have h2 := traceApiCall_error_eq _ _ heq2
            simp only [Prod.mk.injEq, Except.error.injEq, PyError.chat.injEq] at h
            exact h.1 ▸ h2
          · simp at h

/-- Witness for the amended claim C8: against a backend whose send reports a
soft failure, `message_user` still succeeds, with the trace of exactly one
resolution request followed by one send request on the resolved channel. -/
theorem message_user_one_open_one_send_witness :
    Slack.message_user ⟨"sb", "icon", happyClient⟩ ⟨"U1", "alice", none⟩ "hi"
      = (Except.ok (), [ApiRequest.imOpen "U1",
          ApiRequest.postMessage "D99" "hi" "sb" false "icon"]) :=
  (message_user_one_open_one_send ⟨"sb", "icon", happyClient⟩
    ⟨"U1", "alice", none⟩ "hi").1 "D99" rfl rfl rfl

/-- Claim C9: two adapters constructed from the same credential against the
same backend state produce identical user listings — the pagination and
filtering logic is a deterministic function of the responses of the backend. -/
theorem list_users_deterministic (slackClient : String → ApiRequest → SlackResponse)
    (username token icon_url : String) (a1 a2 : Slack) (fuel : Nat)
    (h1 : Slack.init slackClient username token icon_url = Except.ok a1)
    (h2 : Slack.init slackClient username token icon_url = Except.ok a2) :
    Slack.get_users a1 fuel = Slack.get_users a2 fuel := by
  have h : a1 = a2 := Except.ok.inj (h1.symm.trans h2)
  rw [h]

/-- Witness for claim C9: constructing twice against the all-ok backend and
listing users gives the same result. -/
theorem list_users_deterministic_witness :
    Slack.get_users ⟨"sb", "icon", envOk "tok"⟩ 1
      = Slack.get_users ⟨"sb", "icon", envOk "tok"⟩ 1 :=
  list_users_deterministic envOk "sb" "tok" "icon"
    ⟨"sb", "icon", envOk "tok"⟩ ⟨"sb", "icon", envOk "tok"⟩ 1 rfl rfl

/-- Claim C10: construction runs the connectivity validation: when the
connectivity test reports `ok = false` the constructor raises a
`ChatException`, and an instance is only produced when the test reported
`ok = true`. -/
theorem init_requires_connectivity (slackClient : String → ApiRequest → SlackResponse)
    (username token icon_url : String) :
    ((slackClient token ApiRequest.apiTest).ok = some false →
      isChatError (Slack.init slackClient username token icon_url) = true)
    ∧ (∀ a : Slack, Slack.init slackClient username token icon_url = Except.ok a →
        (slackClient token ApiRequest.apiTest).ok = some true) := by
  have hc := apiCall_const (slackClient token ApiRequest.apiTest) true
  constructor
  · intro hok
    rcases hc with hc | hc
    · simp only [Slack.init, Slack._validate, hc]
      rfl
    · simp only [Slack.init, Slack._validate, hc, hok]
      rfl
  · intro a' ha
    rcases hc with hc | hc
    · simp only [Slack.init, Slack._validate, hc] at ha
      simp at ha
    · simp only [Slack.init, Slack._validate, hc] at ha
      rcases ho : (slackClient token ApiRequest.apiTest).ok with _ | bo
      · rw [ho] at ha
        simp at ha
      · rw [ho] at ha
        cases bo with
        | false => simp at ha
        | true => rfl

/-- Witness for claim C10: constructing against the `ok = false` backend
raises a `ChatException`, and the backend of the successfully constructed
adapter did report `ok = true`. -/
theorem init_requires_connectivity_witness :
    isChatError (Slack.init envBad "sb" "tok" "icon") = true
    ∧ (envOk "tok" ApiRequest.apiTest).ok = some true :=
  ⟨(init_requires_connectivity envBad "sb" "tok" "icon").1 rfl,
   (init_requires_connectivity envOk "sb" "tok" "icon").2
     ⟨"sb", "icon", envOk "tok"⟩ rfl⟩
